import Mathlib

/-!
Verification of the natural-language specification of the
`s3-integrity-checks` repository against a shallow embedding of its
Python source (`src/python/integrity.py`).

Bytes are modelled as `Nat` values (below 256 where it matters), byte
strings as `List Nat`, Python strings as Lean `String`, and 32-bit
machine arithmetic as `Nat` with explicit `% 2 ^ 32` where the source
masks with `0xFFFFFFFF`.
-/

set_option maxRecDepth 40000

namespace S3Integrity

/-- Reduce to a 32-bit value, the Lean rendering of `& 0xFFFFFFFF`. -/
def w32 (n : Nat) : Nat := n % 2 ^ 32

/-! ## CRC32 (the semantics of `zlib.crc32`)

`zlib.crc32(data, value)` computes the reflected CRC-32 (IEEE 802.3
polynomial, reflected form `0xEDB88320`): the running register starts at
`value XOR 0xFFFFFFFF`, each input byte is xored into the low bits and
followed by eight conditional shift/xor steps, and the final register is
xored with `0xFFFFFFFF` again. -/

def crc32Poly : Nat := 0xEDB88320

/-- One bit step of the reflected CRC32 update. -/
def crc32Step (c : Nat) : Nat :=
  if c % 2 = 1 then (c / 2) ^^^ crc32Poly else c / 2

/-- Iterate the bit step `n` times. -/
def crc32Steps : Nat → Nat → Nat
  | 0, c => c
  | n + 1, c => crc32Steps n (crc32Step c)

/-- Absorb one input byte into the CRC register. -/
def crc32Byte (c b : Nat) : Nat := crc32Steps 8 (c ^^^ b % 256)

/-- The value of `zlib.crc32 data init`. -/
def crc32 (data : List Nat) (init : Nat) : Nat :=
  (data.foldl crc32Byte (w32 init ^^^ 0xFFFFFFFF)) ^^^ 0xFFFFFFFF

/-! ## Big-endian packing (`struct.pack` and `struct.unpack` with format `>I`) -/

/-- `struct.pack ">I"`: four big-endian bytes of a 32-bit value. -/
def packBE4 (n : Nat) : List Nat :=
  [n / 2 ^ 24 % 256, n / 2 ^ 16 % 256, n / 2 ^ 8 % 256, n % 256]

/-- `struct.unpack ">I"` on exactly four bytes; `none` models the
`struct.error` raised on any other length. -/
def unpackBE4 : List Nat → Option Nat
  | [a, b, c, d] => some (a * 2 ^ 24 + b * 2 ^ 16 + c * 2 ^ 8 + d)
  | _ => none

/-! ## Base64 (the canonical RFC 4648 alphabet used by `base64.b64encode`
and, on the canonical strings this program produces, `base64.b64decode`) -/

def b64alphabet : List Char :=
  "ABCDEFGHIJKLMNOPQRSTUVWXYZabcdefghijklmnopqrstuvwxyz0123456789+/".toList

def b64char (v : Nat) : Char := b64alphabet.getD v 'A'

def b64val (c : Char) : Option Nat := b64alphabet.findIdx? (· == c)

/-- Base64-encode a byte list (three input bytes per four output
characters, `=` padding), as `base64.b64encode` does. -/
def b64encodeBytes : List Nat → List Char
  | [] => []
  | [b0] => [b64char (b0 / 4), b64char (b0 % 4 * 16), '=', '=']
  | [b0, b1] => [b64char (b0 / 4), b64char (b0 % 4 * 16 + b1 / 16), b64char (b1 % 16 * 4), '=']
  | b0 :: b1 :: b2 :: rest =>
      b64char (b0 / 4) :: b64char (b0 % 4 * 16 + b1 / 16) ::
      b64char (b1 % 16 * 4 + b2 / 64) :: b64char (b2 % 64) :: b64encodeBytes rest

def b64encode (bs : List Nat) : String := String.mk (b64encodeBytes bs)

/-- Decode a canonical base64 character list; `none` models the decode
error raised by `base64.b64decode` on malformed input.  (The Python
decoder is additionally lenient about non-canonical trailing bits; every
base64 string this program itself produces is canonical, and all
theorems below quantify over canonically encoded inputs.) -/
def b64decodeChars : List Char → Option (List Nat)
  | [] => some []
  | [c0, c1, '=', '='] =>
      match b64val c0, b64val c1 with
      | some v0, some v1 => if v1 % 16 = 0 then some [v0 * 4 + v1 / 16] else none
      | _, _ => none
  | [c0, c1, c2, '='] =>
      match b64val c0, b64val c1, b64val c2 with
      | some v0, some v1, some v2 =>
          if v2 % 4 = 0 then some [v0 * 4 + v1 / 16, v1 % 16 * 16 + v2 / 4] else none
      | _, _, _ => none
  | c0 :: c1 :: c2 :: c3 :: rest =>
      match b64val c0, b64val c1, b64val c2, b64val c3, b64decodeChars rest with
      | some v0, some v1, some v2, some v3, some bs =>
          some ([v0 * 4 + v1 / 16, v1 % 16 * 16 + v2 / 4, v2 % 4 * 64 + v3] ++ bs)
      | _, _, _, _, _ => none
  | _ => none

def b64decode (s : String) : Option (List Nat) := b64decodeChars s.toList

/-! ## SHA-256 (the semantics of `hashlib.sha256(data).digest()`) -/

def sha256K : List Nat :=
  [1116352408, 1899447441, 3049323471, 3921009573, 961987163, 1508970993,
   2453635748, 2870763221, 3624381080, 310598401, 607225278, 1426881987,
   1925078388, 2162078206, 2614888103, 3248222580, 3835390401, 4022224774,
   264347078, 604807628, 770255983, 1249150122, 1555081692, 1996064986,
   2554220882, 2821834349, 2952996808, 3210313671, 3336571891, 3584528711,
   113926993, 338241895, 666307205, 773529912, 1294757372, 1396182291,
   1695183700, 1986661051, 2177026350, 2456956037, 2730485921, 2820302411,
   3259730800, 3345764771, 3516065817, 3600352804, 4094571909, 275423344,
   430227734, 506948616, 659060556, 883997877, 958139571, 1322822218,
   1537002063, 1747873779, 1955562222, 2024104815, 2227730452, 2361852424,
   2428436474, 2756734187, 3204031479, 3329325298]

def rotr32 (r x : Nat) : Nat := w32 ((x >>> r) ||| (x <<< (32 - r)))

def shaNot (x : Nat) : Nat := w32 x ^^^ 0xFFFFFFFF

def shaCh (x y z : Nat) : Nat := w32 ((x &&& y) ^^^ (shaNot x &&& z))

def shaMaj (x y z : Nat) : Nat := w32 ((x &&& y) ^^^ (x &&& z) ^^^ (y &&& z))

def shaS0 (x : Nat) : Nat := rotr32 2 x ^^^ rotr32 13 x ^^^ rotr32 22 x

def shaS1 (x : Nat) : Nat := rotr32 6 x ^^^ rotr32 11 x ^^^ rotr32 25 x

def shaSig0 (x : Nat) : Nat := rotr32 7 x ^^^ rotr32 18 x ^^^ (x >>> 3)

def shaSig1 (x : Nat) : Nat := rotr32 17 x ^^^ rotr32 19 x ^^^ (x >>> 10)

/-- Eight big-endian bytes of the 64-bit message length. -/
def packBE8 (n : Nat) : List Nat :=
  [n / 2 ^ 56 % 256, n / 2 ^ 48 % 256, n / 2 ^ 40 % 256, n / 2 ^ 32 % 256,
   n / 2 ^ 24 % 256, n / 2 ^ 16 % 256, n / 2 ^ 8 % 256, n % 256]

/-- SHA-256 padding: a `0x80` byte, zero bytes up to 56 mod 64, then the
bit length as eight big-endian bytes. -/
def sha256Pad (msg : List Nat) : List Nat :=
  let L := msg.length
  let zeros := (56 + 64 - (L + 1) % 64) % 64
  msg ++ [0x80] ++ List.replicate zeros 0 ++ packBE8 (L * 8)

/-- Group bytes into big-endian 32-bit words. -/
def bytesToWords : List Nat → List Nat
  | a :: b :: c :: d :: rest => (a * 2 ^ 24 + b * 2 ^ 16 + c * 2 ^ 8 + d) :: bytesToWords rest
  | _ => []

/-- Extend the 16 message words by `k` scheduled words. -/
def shaExtend : Nat → List Nat → List Nat
  | 0, ws => ws
  | k + 1, ws =>
      let i := ws.length
      let wNew := w32 (shaSig1 (ws.getD (i - 2) 0) + ws.getD (i - 7) 0 +
                       shaSig0 (ws.getD (i - 15) 0) + ws.getD (i - 16) 0)
      shaExtend k (ws ++ [wNew])

structure SHAState where
  a : Nat
  b : Nat
  c : Nat
  d : Nat
  e : Nat
  f : Nat
  g : Nat
  hh : Nat

def shaRound (s : SHAState) (k w : Nat) : SHAState :=
  let t1 := w32 (s.hh + shaS1 s.e + shaCh s.e s.f s.g + k + w)
  let t2 := w32 (shaS0 s.a + shaMaj s.a s.b s.c)
  ⟨w32 (t1 + t2), s.a, s.b, s.c, w32 (s.d + t1), s.e, s.f, s.g⟩

def shaInit : SHAState :=
  ⟨1779033703, 3144134277, 1013904242, 2773480762, 1359893119, 2600822924, 528734635, 1541459225⟩

def shaCompress (hs : SHAState) (blockWords : List Nat) : SHAState :=
  let ws := shaExtend 48 blockWords
  let fin := (sha256K.zip ws).foldl (fun s kw => shaRound s kw.1 kw.2) hs
  ⟨w32 (hs.a + fin.a), w32 (hs.b + fin.b), w32 (hs.c + fin.c), w32 (hs.d + fin.d),
   w32 (hs.e + fin.e), w32 (hs.f + fin.f), w32 (hs.g + fin.g), w32 (hs.hh + fin.hh)⟩

/-- Split a list into chunks of at most `n` elements, written with an
explicit fuel argument (the list length bounds the number of rounds) so
that the definition is structurally recursive and kernel-reducible.
`chunks 0 l = []`, matching a Python `read(0)` loop that immediately
sees an empty read and stops. -/
def chunksFuel {α : Type} (n : Nat) : Nat → List α → List (List α)
  | 0, _ => []
  | _ + 1, [] => []
  | fuel + 1, a :: rest =>
      if n = 0 then []
      else (a :: rest).take n :: chunksFuel n fuel ((a :: rest).drop n)

def chunks {α : Type} (n : Nat) (l : List α) : List (List α) := chunksFuel n l.length l

/-- The SHA-256 digest of a byte list, as 32 bytes. -/
def sha256Bytes (msg : List Nat) : List Nat :=
  let blocks := chunks 64 (sha256Pad msg)
  let fin := blocks.foldl (fun hs blk => shaCompress hs (bytesToWords blk)) shaInit
  packBE4 fin.a ++ packBE4 fin.b ++ packBE4 fin.c ++ packBE4 fin.d ++
  packBE4 fin.e ++ packBE4 fin.f ++ packBE4 fin.g ++ packBE4 fin.hh

/-! ## The checksum functions of `integrity.py` -/

/-- Source `compute_crc32`: CRC32 of the data (seed 0), masked to 32
bits, packed big-endian and base64-encoded. -/
def compute_crc32 (data : List Nat) : String :=
  b64encode (packBE4 (w32 (crc32 data 0)))

/-- Source `compute_sha256`: base64 of the SHA-256 digest. -/
def compute_sha256 (data : List Nat) : String :=
  b64encode (sha256Bytes data)

/-- Source `parse_s3_checksum`: strip a `-<partCount>` suffix, keeping
the prefix before the first dash. -/
def parse_s3_checksum (s : String) : String :=
  if s.toList.contains '-' then String.mk (s.toList.takeWhile (· ≠ '-')) else s

/-- The loop body of source `combine_multipart_checksums`: thread the
running CRC through each base64-decoded part checksum.  `none` models
the decode exception on malformed base64. -/
def combine_go : List String → Nat → Option Nat
  | [], acc => some acc
  | s :: rest, acc =>
      match b64decode s with
      | none => none
      | some crcBytes => combine_go rest (w32 (crc32 crcBytes acc))

/-- Source `combine_multipart_checksums`: chain CRC32 over the decoded
part checksums (seed 0), then pack big-endian and base64-encode. -/
def combine_multipart_checksums (part_checksums : List String) : Option String :=
  (combine_go part_checksums 0).map (fun n => b64encode (packBE4 n))

/-! ## Python exceptions, store responses and observable events -/

/-- The exception values the program distinguishes.  `clientError`
carries the machine-readable error code of a botocore `ClientError`;
the other constructors carry only a message. -/
inductive PyErr where
  | clientError (code : String) (msg : String)
  | valueError (msg : String)
  | fileNotFoundError (msg : String)
  | nameError (msg : String)
  | otherError (msg : String)
deriving DecidableEq, Repr

def pyErrMsg : PyErr → String
  | .clientError _ m => m
  | .valueError m => m
  | .fileNotFoundError m => m
  | .nameError m => m
  | .otherError m => m

/-- The fields of an `UploadPart` response that the program consumes:
the ETag plus the optional echoed checksum fields (the dictionary
filtered by keys starting with `Checksum`). -/
structure PartResponse where
  eTag : String
  checksumCRC32 : Option String
  checksumSHA256 : Option String
deriving DecidableEq, Repr

/-- Python `hex(n)` for a non-negative value: `0x` followed by
lowercase hexadecimal digits.  Written with a fuel argument so the
definition is structurally recursive. -/
def hexDigit (n : Nat) : Char := "0123456789abcdef".toList.getD n '0'

def hexDigitsFuel : Nat → Nat → List Char
  | 0, _ => []
  | _ + 1, 0 => []
  | fuel + 1, n + 1 => hexDigitsFuel fuel ((n + 1) / 16) ++ [hexDigit ((n + 1) % 16)]

def pyHex (n : Nat) : String :=
  if n = 0 then "0x0" else "0x" ++ String.mk (hexDigitsFuel n n)

/-- The CRC32 mismatch message of `verify_part_checksum`, reporting the
local and remote values in hex and in decimal. -/
def crcMismatchMsg (localCrc remoteCrc : Nat) : String :=
  "CRC32 mismatch:\nLocal (hex): " ++ pyHex localCrc ++ ", (dec): " ++ toString localCrc ++
  "\nS3    (hex): " ++ pyHex remoteCrc ++ ", (dec): " ++ toString remoteCrc

/-- The SHA256 mismatch message of `verify_part_checksum`. -/
def shaMismatchMsg (localSha remoteSha : String) : String :=
  "SHA256 mismatch:\nLocal: " ++ localSha ++ "\nS3:    " ++ remoteSha

/-- Message for a checksum string that fails base64/size decoding (the
source appends the exception text, which is not modelled further). -/
def invalidCrcMsg : String := "Invalid CRC32 format"

/-- The helper `b64_to_int` inside `verify_part_checksum`: base64-decode
and unpack as one big-endian 32-bit integer; `none` models the
`ValueError` / `struct.error` caught by the source. -/
def b64_to_int (s : String) : Option Nat :=
  match b64decode s with
  | none => none
  | some bs => unpackBE4 bs

/-- The SHA-256 section at the end of `verify_part_checksum`: executed
whenever control falls through the CRC32 section. -/
def shaSection (resp : PartResponse) (data : List Nat) : Bool × Option String :=
  match resp.checksumSHA256 with
  | some remote =>
      let localSha := compute_sha256 data
      if remote ≠ localSha then (false, some (shaMismatchMsg localSha remote)) else (true, none)
  | none => (true, none)

/-- Source `verify_part_checksum` (the `verbose` printing is omitted):
if the response echoes a CRC32, decode both sides to integers and
compare numerically, returning a mismatch or format failure
immediately; otherwise, and after a successful CRC32 comparison, check
the echoed SHA-256 against a recomputed one; with no echoed checksum at
all the result is success. -/
def verify_part_checksum (resp : PartResponse) (data : List Nat) (checksum : String) :
    Bool × Option String :=
  match resp.checksumCRC32 with
  | some remoteS =>
      match b64_to_int checksum with
      | none => (false, some invalidCrcMsg)
      | some localCrc =>
          match b64_to_int remoteS with
          | none => (false, some invalidCrcMsg)
          | some remoteCrc =>
              if remoteCrc ≠ localCrc then (false, some (crcMismatchMsg localCrc remoteCrc))
              else shaSection resp data
  | none => shaSection resp data

/-- One manifest entry appended after a verified part upload, with the
keys the source stores: ETag, PartNumber, ChecksumCRC32. -/
structure Part where
  eTag : String
  partNumber : Nat
  checksumCRC32 : String
deriving DecidableEq, Repr

/-- The object-level mismatch message of `verify_uploaded_object`. -/
def objMismatchMsg (calculated s3c : String) : String :=
  "Checksum mismatch (Calculated: " ++ calculated ++ ", S3: " ++ s3c ++ ")"

/-- Source `verify_uploaded_object`, as a function of the outcome of the
`GetObject` call (an exception, or the `ChecksumCRC32` response field
with `response.get` already defaulting a missing field to the empty
string; draining and closing the body is part of the call outcome) and
of the part manifest.  Any exception is folded into a
`(False, "Verification error: ...")` result, as the source's blanket
`except` does. -/
def verify_uploaded_object (getResult : Except PyErr String) (parts : List Part) :
    Bool × Option String :=
  match getResult with
  | .error e => (false, some ("Verification error: " ++ pyErrMsg e))
  | .ok raw =>
      match combine_multipart_checksums (parts.map (fun p => p.checksumCRC32)) with
      | none => (false, some "Verification error: invalid base64 in part checksums")
      | some calculated =>
          let s3c := parse_s3_checksum raw
          if s3c ≠ calculated then (false, some (objMismatchMsg calculated s3c))
          else (true, none)

/-! ## The upload state machine (`multipart_upload`)

The interpreter below is a line-by-line shallow embedding of the
`multipart_upload` function.  The object store is an oracle supplying
the outcome of each network call; the interpreter records every call it
issues as an `Event`, the phase ledger it accumulates, and the final
outcome (a returned `UploadStatus` or a raised `UploadError`). -/

/-- Source `UploadStage` enum. -/
inductive UploadStage where
  | INIT
  | PART_UPLOAD
  | VERIFICATION
  | COMPLETION
deriving DecidableEq, Repr

/-- Source `UploadPhase` dataclass. -/
structure UploadPhase where
  stage : UploadStage
  part_number : Option Nat
  success : Bool
  message : Option String
  exception : Option PyErr
deriving DecidableEq, Repr

/-- Source `UploadError`: the exception raised on failure.  Its only
payload is the single failing phase. -/
structure UploadErr where
  phase : UploadPhase
deriving DecidableEq, Repr

/-- The network calls and resource actions an execution can perform, in
order.  `closeSource` would be the closing of the input byte source;
the Python-3 source never actually emits it (see `applyFinally`). -/
inductive Event where
  | createMultipartUpload (bucket key : String)
  | uploadPart (bucket key uploadId : String) (partNumber : Nat) (body : List Nat) (checksum : String)
  | completeMultipartUpload (bucket key uploadId : String) (parts : List Part)
  | getObject (bucket key : String)
  | abortMultipartUpload (bucket key uploadId : String)
  | closeSource
deriving DecidableEq, Repr

/-- The store oracle: one entry per store operation the source uses.
`getObjectResult` is the `ChecksumCRC32` field of the `GetObject`
response after the body has been drained and closed (`response.get`
defaults a missing field to `""`); an `error` in any field is the
exception that call raises. -/
structure Store where
  createResult : Except PyErr String
  uploadPartResult : Nat → List Nat → String → Except PyErr PartResponse
  completeResult : List Part → Except PyErr Unit
  getObjectResult : Except PyErr String
  abortResult : Except PyErr Unit

/-- The `source_data` argument: a Python `str`, `bytes`, `io.BytesIO`
(`buffer`), or a value of any other type. -/
inductive PySource where
  | str (s : String)
  | bytes (data : List Nat)
  | buffer (data : List Nat)
  | otherObj
deriving DecidableEq, Repr

/-- UTF-8 encoding of one character, as `str.encode` produces. -/
def utf8Char (c : Char) : List Nat :=
  let n := c.toNat
  if n < 0x80 then [n]
  else if n < 0x800 then [0xC0 + n / 64, 0x80 + n % 64]
  else if n < 0x10000 then [0xE0 + n / 4096, 0x80 + n / 64 % 64, 0x80 + n % 64]
  else [0xF0 + n / 262144, 0x80 + n / 4096 % 64, 0x80 + n / 64 % 64, 0x80 + n % 64]

def utf8Bytes (s : String) : List Nat := (s.toList.map utf8Char).flatten

/-- Arguments of `multipart_upload` that the embedding tracks (client
configuration and credentials are opaque to the state machine). -/
structure Args where
  bucket : String
  key : String
  source : PySource
  is_file : Bool

/-- The environment: the filesystem (`none` is a missing file) and the
store oracle. -/
structure Env where
  fs : String → Option (List Nat)
  store : Store

/-- Input handling (source lines 326-345), performed after the Init
call: for `is_file` a string path is required and the file must exist;
otherwise text is UTF-8 encoded and bytes/BytesIO are used directly.
The error is the `ValueError` / `FileNotFoundError` the source raises. -/
def readSource (is_file : Bool) (source : PySource) (fs : String → Option (List Nat)) :
    Except PyErr (List Nat) :=
  if is_file then
    match source with
    | .str path =>
        match fs path with
        | none => .error (.fileNotFoundError path)
        | some data => .ok data
    | _ => .error (.valueError "File upload requires a string path")
  else
    match source with
    | .str s => .ok (utf8Bytes s)
    | .bytes d => .ok d
    | .buffer d => .ok d
    | .otherObj => .error (.valueError "Invalid input type for text/bytes upload")

/-- The bytes an in-memory (non-file) source yields. -/
def inMemoryBytes : PySource → Option (List Nat)
  | .str s => some (utf8Bytes s)
  | .bytes d => some d
  | .buffer d => some d
  | .otherObj => none

/-- 8 MiB, the fixed chunk size of the read loop. -/
def partSize : Nat := 8 * 1024 * 1024

/-- How the read loop terminates: normal exhaustion of the source, a
raised `UploadError` (whose phase is already appended to the ledger),
or a non-`ClientError` exception escaping the per-part `try` (its
in-flight phase is never appended). -/
inductive LoopExit where
  | finished (parts : List Part) (bytesSent : Nat)
  | uploadErr (phase : UploadPhase)
  | pyErr (e : PyErr)
deriving DecidableEq, Repr

/-- The fixed data of one read loop: the `UploadPart` oracle and the
call arguments. -/
structure LoopCtx where
  up : Nat → List Nat → String → Except PyErr PartResponse
  bucket : String
  key : String
  uploadId : String
  fileSize : Nat

/-- The read loop (source lines 347-396): per chunk, compute the CRC32,
call `UploadPart`, verify the echoed checksums, append the manifest
entry and the phase record.  A `ClientError` is mapped to a targeted
failing phase; any other exception escapes uncaught. -/
def runLoop (ctx : LoopCtx) :
    List (List Nat) → Nat → Nat → List Part → LoopExit × List UploadPhase × List Event
  | [], _, bytesSent, parts => (.finished parts bytesSent, [], [])
  | chunk :: rest, pn, bytesSent, parts =>
    let checksum := compute_crc32 chunk
    let ev := Event.uploadPart ctx.bucket ctx.key ctx.uploadId pn chunk checksum
    match ctx.up pn chunk checksum with
    | .error e =>
        match e with
        | .clientError code m =>
            let msg := if code = "InvalidChecksum" then "Checksum validation failed" else "Upload failed"
            let ph : UploadPhase := ⟨.PART_UPLOAD, some pn, false, some msg, some (.clientError code m)⟩
            (.uploadErr ph, [ph], [ev])
        | _ => (.pyErr e, [], [ev])
    | .ok resp =>
        match verify_part_checksum resp chunk checksum with
        | (false, errMsg) =>
            let ph : UploadPhase := ⟨.PART_UPLOAD, some pn, false, errMsg, none⟩
            (.uploadErr ph, [ph], [ev])
        | (true, _) =>
            let bytesSent2 := bytesSent + chunk.length
            let ph : UploadPhase := ⟨.PART_UPLOAD, some pn, true,
              some ("Uploaded and verified (" ++ toString bytesSent2 ++ "/" ++
                    toString ctx.fileSize ++ " bytes)"), none⟩
            let r := runLoop ctx rest (pn + 1) bytesSent2 (parts ++ [⟨resp.eTag, pn, checksum⟩])
            (r.1, ph :: r.2.1, ev :: r.2.2)

/-- The `finally` clause of the read loop (source lines 398-400):
`if is_file and isinstance(data_source, (file, BytesIO)): data_source.close()`.
Under Python 3 the name `file` is not defined, so whenever `is_file` is
true evaluating the condition raises `NameError`, which replaces any
exception already propagating, and the source is never closed; when
`is_file` is false the conjunction short-circuits and no close happens
either.  Consequently no execution emits `closeSource`. -/
def applyFinally (is_file : Bool) (lexit : LoopExit) : LoopExit :=
  if is_file then .pyErr (.nameError "name file is not defined") else lexit

/-- The final observable outcome of `multipart_upload`: the returned or
raised result, the final phase ledger (printed by `print_summary` on
every path), and the ordered calls issued. -/
structure RunResult where
  result : Except UploadErr Unit
  phases : List UploadPhase
  trace : List Event
deriving Repr

/-- The `except Exception` handler (source lines 445-449): a synthetic
failing INIT phase is appended and a fresh `UploadError` is raised.  No
abort is attempted on this path. -/
def handleUnexpected (e : PyErr) (phases : List UploadPhase) (trace : List Event) : RunResult :=
  let ph : UploadPhase := ⟨.INIT, none, false, some "Unexpected error", some e⟩
  ⟨.error ⟨ph⟩, phases ++ [ph], trace⟩

/-- The `except UploadError` handler (source lines 430-444): when an
uploadId exists, `AbortMultipartUpload` is called; its outcome is only
logged (a failed abort is reported as a warning and never replaces the
propagating error), so the interpreter records the call and re-raises
the original error unchanged. -/
def handleUploadError (bucket key : String) (uploadId : Option String) (ph : UploadPhase)
    (phases : List UploadPhase) (trace : List Event) : RunResult :=
  match uploadId with
  | some uid => ⟨.error ⟨ph⟩, phases, trace ++ [Event.abortMultipartUpload bucket key uid]⟩
  | none => ⟨.error ⟨ph⟩, phases, trace⟩

/-- The successful-INIT phase record. -/
def initSuccessPhase : UploadPhase :=
  ⟨.INIT, none, true, some "Upload initiated successfully", none⟩

/-- Completion and verification (source lines 402-428), entered when the
read loop and its `finally` clause finished without an exception. -/
def completionStage (args : Args) (env : Env) (uid : String) (parts : List Part)
    (phases1 : List UploadPhase) (trace1 : List Event) : RunResult :=
  let trace2 := trace1 ++ [Event.completeMultipartUpload args.bucket args.key uid parts]
  match env.store.completeResult parts with
  | .error e =>
      let ph : UploadPhase := ⟨.COMPLETION, none, false, some "Failed to complete upload", some e⟩
      handleUploadError args.bucket args.key (some uid) ph (phases1 ++ [ph]) trace2
  | .ok _ =>
      let cph : UploadPhase := ⟨.COMPLETION, none, true, some "Upload completed successfully", none⟩
      let trace3 := trace2 ++ [Event.getObject args.bucket args.key]
      match verify_uploaded_object env.store.getObjectResult parts with
      | (true, _) =>
          let vph : UploadPhase := ⟨.VERIFICATION, none, true, some "All checksums verified successfully", none⟩
          ⟨.ok (), phases1 ++ [cph, vph], trace3⟩
      | (false, errMsg) =>
          let vph : UploadPhase := ⟨.VERIFICATION, none, false, errMsg, none⟩
          handleUploadError args.bucket args.key (some uid) vph (phases1 ++ [cph, vph]) trace3

/-- Dispatch on the read loop outcome after its `finally` clause: the
two `except` handlers of the source, or the completion stage. -/
def afterLoop (args : Args) (env : Env) (uid : String)
    (lr : LoopExit × List UploadPhase × List Event) : RunResult :=
  let phases1 := initSuccessPhase :: lr.2.1
  let trace1 := Event.createMultipartUpload args.bucket args.key :: lr.2.2
  match applyFinally args.is_file lr.1 with
  | .pyErr e => handleUnexpected e phases1 trace1
  | .uploadErr ph => handleUploadError args.bucket args.key (some uid) ph phases1 trace1
  | .finished parts _ => completionStage args env uid parts phases1 trace1

/-- Everything after a successful Init and input read: the read loop,
its `finally` clause, and either handler or the completion stage. -/
def runBody (args : Args) (env : Env) (uid : String) (data : List Nat) : RunResult :=
  afterLoop args env uid
    (runLoop ⟨env.store.uploadPartResult, args.bucket, args.key, uid, data.length⟩
      (chunks partSize data) 1 0 [])

/-- Source `multipart_upload`: initiate the upload (the first network
call, made before the input source is even inspected), then read, chunk
and upload the input, complete the upload and re-verify the stored
object, with the two `except` handlers of the source. -/
def multipart_upload (args : Args) (env : Env) : RunResult :=
  let tr0 := [Event.createMultipartUpload args.bucket args.key]
  match env.store.createResult with
  | .error e =>
      let ph : UploadPhase := ⟨.INIT, none, false, some "Failed to initiate upload", some e⟩
      ⟨.error ⟨ph⟩, [ph], tr0⟩
  | .ok uid =>
      match readSource args.is_file args.source env.fs with
      | .error e => handleUnexpected e [initSuccessPhase] tr0
      | .ok data => runBody args env uid data

/-! ## Decidability of run outcomes -/

instance {ε α : Type} [DecidableEq ε] [DecidableEq α] : DecidableEq (Except ε α) := fun x y =>
  match x, y with
  | .error a, .error b =>
      if h : a = b then isTrue (congrArg Except.error h)
      else isFalse (fun hc => h (Except.error.inj hc))
  | .ok a, .ok b =>
      if h : a = b then isTrue (congrArg Except.ok h)
      else isFalse (fun hc => h (Except.ok.inj hc))
  | .error _, .ok _ => isFalse (fun hc => Except.noConfusion hc)
  | .ok _, .error _ => isFalse (fun hc => Except.noConfusion hc)

/-! ## Reference definitions for the claims -/

/-- The chained accumulator of the reference algorithm. -/
def combineRefGo (bss : List (List Nat)) (acc : Nat) : Nat :=
  bss.foldl (fun a bs => crc32 bs a) acc

/-- Reference definition written from the spec wording for the store's
multipart-CRC32-combination algorithm: decode each input checksum to its
raw four bytes (here, the raw bytes are the input), feed them in
sequence order through a chained CRC32 accumulator seeded with 0, and
base64-encode the big-endian four-byte result. -/
def combineMultipartCrc32Ref (bss : List (List Nat)) : String :=
  b64encode (packBE4 (combineRefGo bss 0))

/-- The contiguous sequence `s, s + 1, ..., s + n - 1`. -/
def seqFrom : Nat → Nat → List Nat
  | _, 0 => []
  | s, n + 1 => s :: seqFrom (s + 1) n

/-! ## Concrete inputs used by witnesses and counterexamples -/

/-- Concrete inputs for the C3 counterexample: two runs whose only
difference is the input data (zero bytes versus one byte), both failing
at completion with the same store error. -/
def c3Store : Store :=
  ⟨.ok "u", fun _ _ _ => .ok ⟨"e", none, none⟩, fun _ => .error (.otherError "boom"), .ok "", .ok ()⟩

def c3Env : Env := ⟨fun _ => none, c3Store⟩

def c3ArgsA : Args := ⟨"b", "k", .bytes [], false⟩

def c3ArgsB : Args := ⟨"b", "k", .bytes [42], false⟩

def c3wErr : UploadErr :=
  ⟨⟨.INIT, none, false, some "Failed to initiate upload",
    some (.clientError "InvalidBucketName" "bad bucket")⟩⟩

def c3wStore : Store :=
  ⟨.error (.clientError "InvalidBucketName" "bad bucket"),
   fun _ _ _ => .ok ⟨"e", none, none⟩, fun _ => .ok (), .ok "", .ok ()⟩

def c3wEnv : Env := ⟨fun _ => none, c3wStore⟩

def c3wArgs : Args := ⟨"bw", "kw", .bytes [1], false⟩

/-- Concrete inputs for the C2 counterexample: Init succeeds, then the
file named by the source argument does not exist. -/
def c2cStore : Store :=
  ⟨.ok "u9", fun _ _ _ => .ok ⟨"e", none, none⟩, fun _ => .ok (), .ok "", .ok ()⟩

def c2cEnv : Env := ⟨fun _ => none, c2cStore⟩

def c2cArgs : Args := ⟨"bc", "kc", .str "nofile", true⟩

def c2wErr : UploadErr :=
  ⟨⟨.COMPLETION, none, false, some "Failed to complete upload", some (.otherError "x")⟩⟩

def c2wStore : Store :=
  ⟨.ok "u2", fun _ _ _ => .ok ⟨"e", none, none⟩, fun _ => .error (.otherError "x"), .ok "", .ok ()⟩

def c2wEnv : Env := ⟨fun _ => none, c2wStore⟩

def c2wArgs : Args := ⟨"b2", "k2", .bytes [3], false⟩

def c4Store : Store :=
  ⟨.ok "u4", fun _ _ _ => .ok ⟨"e", none, none⟩, fun _ => .ok (), .ok "", .ok ()⟩

def c4Env : Env := ⟨fun _ => some [1], c4Store⟩

def c4Args : Args := ⟨"b4", "k4", .bytes [5], true⟩

def c4wStore : Store :=
  ⟨.ok "u4w", fun _ _ _ => .ok ⟨"e", none, none⟩, fun _ => .ok (), .ok "", .ok ()⟩

def c4wEnv : Env := ⟨fun _ => none, c4wStore⟩

def c4wArgs : Args := ⟨"b4w", "k4w", .otherObj, false⟩

/-- Concrete inputs for C5: a file upload in which every store call
succeeds and the object checksum matches, so the only failure can come
from the cleanup clause itself. -/
def c5Store : Store :=
  ⟨.ok "u5", fun _ _ _ => .ok ⟨"e5", none, none⟩, fun _ => .ok (),
   .ok ((combine_multipart_checksums [compute_crc32 [1, 2, 3]]).getD ""), .ok ()⟩

def c5Env : Env := ⟨fun p => if p = "f" then some [1, 2, 3] else none, c5Store⟩

def c5Args : Args := ⟨"b5", "k5", .str "f", true⟩

def c5MemStore : Store :=
  ⟨.ok "u5m", fun _ _ _ => .ok ⟨"e5m", none, none⟩, fun _ => .ok (),
   .ok ((combine_multipart_checksums [compute_crc32 [9]]).getD ""), .ok ()⟩

def c5MemEnv : Env := ⟨fun _ => none, c5MemStore⟩

def c5MemArgs : Args := ⟨"b5m", "k5m", .bytes [9], false⟩

def c7Store : Store :=
  ⟨.ok "u7", fun _ _ _ => .ok ⟨"e7", none, none⟩, fun _ => .ok (), .ok "", .ok ()⟩

def c7Env : Env := ⟨fun _ => none, c7Store⟩

def c7Args : Args := ⟨"b7", "k7", .bytes [7], false⟩

def c8Store : Store :=
  ⟨.ok "u8", fun _ _ _ => .ok ⟨"e8", none, none⟩, fun _ => .ok (), .ok "AAAAAA==", .ok ()⟩

def c8Env : Env := ⟨fun p => if p = "empty" then some [] else none, c8Store⟩

def c8Args : Args := ⟨"b8", "k8", .str "empty", true⟩

def c8wStore : Store :=
  ⟨.ok "u8w", fun _ _ _ => .ok ⟨"e8w", none, none⟩, fun _ => .ok (), .ok "AAAAAA==", .ok ()⟩

def c8wEnv : Env := ⟨fun _ => none, c8wStore⟩

def c8wArgs : Args := ⟨"b8w", "k8w", .bytes [], false⟩

/-! ## Bounds: the CRC register stays below 2 ^ 32 -/

theorem crc32Step_lt {c : Nat} (h : c < 2 ^ 32) : crc32Step c < 2 ^ 32 := by
  unfold crc32Step
  split
  · exact Nat.xor_lt_two_pow (lt_of_le_of_lt (Nat.div_le_self c 2) h) (by norm_num [crc32Poly])
  · exact lt_of_le_of_lt (Nat.div_le_self c 2) h

theorem crc32Steps_lt : ∀ (n : Nat) {c : Nat}, c < 2 ^ 32 → crc32Steps n c < 2 ^ 32
  | 0, _, h => h
  | n + 1, _, h => crc32Steps_lt n (crc32Step_lt h)

theorem crc32Byte_lt {c : Nat} (b : Nat) (h : c < 2 ^ 32) : crc32Byte c b < 2 ^ 32 :=
  crc32Steps_lt 8 (Nat.xor_lt_two_pow h
    (lt_trans (Nat.mod_lt b (by norm_num)) (by norm_num)))

theorem crc32_foldl_lt : ∀ (data : List Nat) {c : Nat}, c < 2 ^ 32 →
    data.foldl crc32Byte c < 2 ^ 32
  | [], _, h => h
  | _ :: rest, _, h => crc32_foldl_lt rest (crc32Byte_lt _ h)

theorem crc32_lt (data : List Nat) (init : Nat) : crc32 data init < 2 ^ 32 := by
  unfold crc32
  exact Nat.xor_lt_two_pow
    (crc32_foldl_lt data
      (Nat.xor_lt_two_pow (Nat.mod_lt init (by norm_num)) (by norm_num)))
    (by norm_num)

/-! ## C1: multipart checksum combination matches the reference algorithm -/

theorem combine_go_eq_ref : ∀ (css : List String) (bss : List (List Nat)) (acc : Nat),
    css.length = bss.length →
    (∀ p ∈ css.zip bss, b64decode p.1 = some p.2) →
    combine_go css acc = some (combineRefGo bss acc)
  | [], [], _, _, _ => rfl
  | [], _ :: _, _, h, _ => by simp at h
  | _ :: _, [], _, h, _ => by simp at h
  | c :: cs, b :: bs, acc, hlen, hdec => by
      have h1 : b64decode c = some b := hdec (c, b) (by simp)
      have hrest : ∀ p ∈ cs.zip bs, b64decode p.1 = some p.2 :=
        fun p hp => hdec p (by simp [hp])
      have hmask : w32 (crc32 b acc) = crc32 b acc := Nat.mod_eq_of_lt (crc32_lt b acc)
      simp only [combine_go, h1, hmask]
      exact combine_go_eq_ref cs bs (crc32 b acc) (by simpa using hlen) hrest

/-- C1: for every ordered sequence of base64-encoded 4-byte CRC32
checksums (strings `css` decoding to the 4-byte lists `bss`),
`combine_multipart_checksums` returns exactly the reference combination:
base64 of the big-endian four bytes obtained by chaining CRC32 over the
decoded raw checksum bytes in sequence order, seeded with 0. -/
theorem C1_combine_matches_reference (css : List String) (bss : List (List Nat))
    (hlen : css.length = bss.length)
    (hdec : ∀ p ∈ css.zip bss, b64decode p.1 = some p.2 ∧ p.2.length = 4) :
    combine_multipart_checksums css = some (combineMultipartCrc32Ref bss) := by
  unfold combine_multipart_checksums combineMultipartCrc32Ref
  rw [combine_go_eq_ref css bss 0 hlen (fun p hp => (hdec p hp).1)]
  rfl

/-- Witness for C1 at a concrete two-element sequence. -/
theorem C1_witness :
    ((["AAAAAA==", "y/Q5Jg=="] : List String).length
        = ([[0, 0, 0, 0], [0xCB, 0xF4, 0x39, 0x26]] : List (List Nat)).length
      ∧ ∀ p ∈ (["AAAAAA==", "y/Q5Jg=="] : List String).zip
            ([[0, 0, 0, 0], [0xCB, 0xF4, 0x39, 0x26]] : List (List Nat)),
          b64decode p.1 = some p.2 ∧ p.2.length = 4)
    ∧ combine_multipart_checksums ["AAAAAA==", "y/Q5Jg=="]
      = some (combineMultipartCrc32Ref [[0, 0, 0, 0], [0xCB, 0xF4, 0x39, 0x26]]) :=
  ⟨⟨by decide, by decide⟩,
    C1_combine_matches_reference _ _ (by decide) (by decide)⟩

/-! ## C6 and C9: the part verifier -/

/-- C6: when the `UploadPart` response carries a `ChecksumCRC32` field,
`verify_part_checksum` decodes both the sent checksum and the response
value to 32-bit integers and compares them numerically — success
exactly on equality, and on mismatch the failure message is the one
reporting both values in hex and in decimal; and when the response
carries neither checksum field the result is success. -/
theorem C6_part_verifier (data : List Nat) (localS remoteS : String) (localCrc remoteCrc : Nat)
    (hl : b64_to_int localS = some localCrc) (hr : b64_to_int remoteS = some remoteCrc) :
    (∀ et : String, verify_part_checksum ⟨et, some remoteS, none⟩ data localS =
      if remoteCrc = localCrc then (true, none)
      else (false, some (crcMismatchMsg localCrc remoteCrc)))
    ∧ (∀ et : String, verify_part_checksum ⟨et, none, none⟩ data localS = (true, none)) := by
  constructor
  · intro et
    simp only [verify_part_checksum, hl, hr, shaSection]
    by_cases h : remoteCrc = localCrc <;> simp [h]
  · intro et
    rfl

/-- Witness for C6 at a concrete sent checksum and response value. -/
theorem C6_witness :
    (b64_to_int (compute_crc32 [1]) = some (w32 (crc32 [1] 0))
      ∧ b64_to_int "AAAAAA==" = some 0)
    ∧ (∀ et : String, verify_part_checksum ⟨et, some "AAAAAA==", none⟩ [1] (compute_crc32 [1]) =
        if 0 = w32 (crc32 [1] 0) then (true, none)
        else (false, some (crcMismatchMsg (w32 (crc32 [1] 0)) 0)))
    ∧ (∀ et : String, verify_part_checksum ⟨et, none, none⟩ [1] (compute_crc32 [1]) = (true, none)) := by
  refine ⟨⟨by decide, by decide⟩, ?_, ?_⟩
  · exact (C6_part_verifier [1] (compute_crc32 [1]) "AAAAAA==" (w32 (crc32 [1] 0)) 0
      (by decide) (by decide)).1
  · exact (C6_part_verifier [1] (compute_crc32 [1]) "AAAAAA==" (w32 (crc32 [1] 0)) 0
      (by decide) (by decide)).2

/-- C9: when an `UploadPart` response carries both a `ChecksumCRC32` and
a `ChecksumSHA256` field, `verify_part_checksum` succeeds exactly when
the decoded CRC32 integers are equal and the SHA-256 base64 strings are
equal; a matching CRC32 does not short-circuit the SHA-256 comparison. -/
theorem C9_both_checksums (data : List Nat) (et localS remoteS shaS : String)
    (localCrc remoteCrc : Nat)
    (hl : b64_to_int localS = some localCrc) (hr : b64_to_int remoteS = some remoteCrc) :
    verify_part_checksum ⟨et, some remoteS, some shaS⟩ data localS = (true, none)
    ↔ (remoteCrc = localCrc ∧ shaS = compute_sha256 data) := by
  simp only [verify_part_checksum, hl, hr, shaSection]
  by_cases hc : remoteCrc = localCrc
  · by_cases hs : shaS = compute_sha256 data <;> simp [hc, hs]
  · simp [hc]

/-- Witness for C9: matching CRC32 together with both a matching and a
non-matching SHA-256 field. -/
theorem C9_witness :
    (b64_to_int (compute_crc32 [2]) = some (w32 (crc32 [2] 0)))
    ∧ (verify_part_checksum
        ⟨"e1", some (compute_crc32 [2]), some (compute_sha256 [2])⟩ [2] (compute_crc32 [2])
          = (true, none)
        ↔ (w32 (crc32 [2] 0) = w32 (crc32 [2] 0) ∧ compute_sha256 [2] = compute_sha256 [2])) :=
  ⟨by decide,
    C9_both_checksums [2] "e1" (compute_crc32 [2]) (compute_crc32 [2]) (compute_sha256 [2])
      (w32 (crc32 [2] 0)) (w32 (crc32 [2] 0)) (by decide) (by decide)⟩

/-! ## C10: combining an empty manifest -/

/-- C10: `combine_multipart_checksums` on the empty sequence returns
`"AAAAAA=="`, the base64 encoding of four zero bytes (the CRC32 seed),
and object verification of an empty manifest therefore compares that
fixed value against the store-reported checksum instead of raising. -/
theorem C10_empty_manifest :
    combine_multipart_checksums [] = some "AAAAAA=="
    ∧ ∀ raw : String, verify_uploaded_object (.ok raw) [] =
        (if parse_s3_checksum raw = "AAAAAA==" then (true, none)
         else (false, some (objMismatchMsg "AAAAAA==" (parse_s3_checksum raw)))) := by
  constructor
  · decide
  · intro raw
    have hc : combine_multipart_checksums (([] : List Part).map (fun p => p.checksumCRC32))
        = some "AAAAAA==" := by decide
    simp only [verify_uploaded_object, hc]
    by_cases h : parse_s3_checksum raw = "AAAAAA==" <;> simp [h]

/-! ## Invariants of the read loop -/

theorem getLast?_append_some {α : Type} (l1 : List α) {l2 : List α} {x : α}
    (h : l2.getLast? = some x) : (l1 ++ l2).getLast? = some x := by
  rw [List.getLast?_append, h]
  rfl

/-- When the loop raises `UploadError`, the failing phase is the last
phase it appended and it is marked unsuccessful. -/
theorem runLoop_uploadErr_last (ctx : LoopCtx) :
    ∀ (cks : List (List Nat)) (pn bytesSent : Nat) (parts : List Part) (ph : UploadPhase),
    (runLoop ctx cks pn bytesSent parts).1 = .uploadErr ph →
    (runLoop ctx cks pn bytesSent parts).2.1.getLast? = some ph ∧ ph.success = false := by
  intro cks
  induction cks with
  | nil =>
      intro pn bytesSent parts ph h
      simp only [runLoop] at h
      exact LoopExit.noConfusion h
  | cons chunk rest ih =>
      intro pn bytesSent parts ph h
      cases hup : ctx.up pn chunk (compute_crc32 chunk) with
      | error e =>
          cases e with
          | clientError code m =>
              simp only [runLoop, hup] at h ⊢
              cases h
              exact ⟨rfl, rfl⟩
          | valueError m =>
              simp only [runLoop, hup] at h
              exact LoopExit.noConfusion h
          | fileNotFoundError m =>
              simp only [runLoop, hup] at h
              exact LoopExit.noConfusion h
          | nameError m =>
              simp only [runLoop, hup] at h
              exact LoopExit.noConfusion h
          | otherError m =>
              simp only [runLoop, hup] at h
              exact LoopExit.noConfusion h
      | ok resp =>
          cases hv : verify_part_checksum resp chunk (compute_crc32 chunk) with
          | mk b msg =>
              cases b
              · simp only [runLoop, hup, hv] at h ⊢
                cases h
                exact ⟨rfl, rfl⟩
              · simp only [runLoop, hup, hv] at h ⊢
                have := ih (pn + 1) (bytesSent + chunk.length)
                  (parts ++ [⟨resp.eTag, pn, compute_crc32 chunk⟩]) ph h
                exact ⟨getLast?_append_some [_] this.1, this.2⟩

/-- When the loop finishes normally, the manifest it returns extends the
initial one by parts numbered contiguously from the initial counter. -/
theorem runLoop_finished_parts (ctx : LoopCtx) :
    ∀ (cks : List (List Nat)) (pn bytesSent : Nat) (parts parts2 : List Part) (bs2 : Nat),
    (runLoop ctx cks pn bytesSent parts).1 = .finished parts2 bs2 →
    ∃ suf : List Part, parts2 = parts ++ suf
      ∧ suf.map (fun p => p.partNumber) = seqFrom pn suf.length := by
  intro cks
  induction cks with
  | nil =>
      intro pn bytesSent parts parts2 bs2 h
      simp only [runLoop] at h
      injection h with h1 h2
      exact ⟨[], by rw [← h1, List.append_nil], rfl⟩
  | cons chunk rest ih =>
      intro pn bytesSent parts parts2 bs2 h
      cases hup : ctx.up pn chunk (compute_crc32 chunk) with
      | error e =>
          cases e with
          | clientError code m =>
              simp only [runLoop, hup] at h
              exact LoopExit.noConfusion h
          | valueError m =>
              simp only [runLoop, hup] at h
              exact LoopExit.noConfusion h
          | fileNotFoundError m =>
              simp only [runLoop, hup] at h
              exact LoopExit.noConfusion h
          | nameError m =>
              simp only [runLoop, hup] at h
              exact LoopExit.noConfusion h
          | otherError m =>
              simp only [runLoop, hup] at h
              exact LoopExit.noConfusion h
      | ok resp =>
          cases hv : verify_part_checksum resp chunk (compute_crc32 chunk) with
          | mk b msg =>
              cases b
              · simp only [runLoop, hup, hv] at h
                exact LoopExit.noConfusion h
              · simp only [runLoop, hup, hv] at h
                obtain ⟨suf, hps, hmap⟩ := ih (pn + 1) (bytesSent + chunk.length)
                  (parts ++ [⟨resp.eTag, pn, compute_crc32 chunk⟩]) parts2 bs2 h
                refine ⟨⟨resp.eTag, pn, compute_crc32 chunk⟩ :: suf, ?_, ?_⟩
                · rw [hps, List.append_assoc]
                  rfl
                · simp only [List.map_cons, hmap, List.length_cons, seqFrom]

/-- Every event the loop emits is an `UploadPart` call. -/
theorem runLoop_trace_shape (ctx : LoopCtx) :
    ∀ (cks : List (List Nat)) (pn bytesSent : Nat) (parts : List Part) (e2 : Event),
    e2 ∈ (runLoop ctx cks pn bytesSent parts).2.2 →
    ∃ p c s2, e2 = Event.uploadPart ctx.bucket ctx.key ctx.uploadId p c s2 := by
  intro cks
  induction cks with
  | nil =>
      intro pn bytesSent parts e2 h
      simp only [runLoop, List.not_mem_nil] at h
  | cons chunk rest ih =>
      intro pn bytesSent parts e2 h
      cases hup : ctx.up pn chunk (compute_crc32 chunk) with
      | error e =>
          cases e <;> simp only [runLoop, hup, List.mem_singleton] at h <;>
            exact ⟨pn, chunk, compute_crc32 chunk, h⟩
      | ok resp =>
          cases hv : verify_part_checksum resp chunk (compute_crc32 chunk) with
          | mk b msg =>
              cases b
              · simp only [runLoop, hup, hv, List.mem_singleton] at h
                exact ⟨pn, chunk, compute_crc32 chunk, h⟩
              · simp only [runLoop, hup, hv, List.mem_cons] at h
                rcases h with h | h
                · exact ⟨pn, chunk, compute_crc32 chunk, h⟩
                · exact ih (pn + 1) (bytesSent + chunk.length)
                    (parts ++ [⟨resp.eTag, pn, compute_crc32 chunk⟩]) e2 h

/-! ## Behaviour of the completion stage and the two handlers -/

/-- When the completion stage fails, the raised error carries the last
appended phase and that phase is marked unsuccessful. -/
theorem completionStage_error (args : Args) (env : Env) (uid : String) (parts : List Part)
    (phases1 : List UploadPhase) (trace1 : List Event) (err : UploadErr)
    (h : (completionStage args env uid parts phases1 trace1).result = .error err) :
    (completionStage args env uid parts phases1 trace1).phases.getLast? = some err.phase
    ∧ err.phase.success = false := by
  cases hcr : env.store.completeResult parts with
  | error e =>
      simp only [completionStage, hcr, handleUploadError] at h ⊢
      cases h
      exact ⟨List.getLast?_concat _, rfl⟩
  | ok u =>
      cases hv : verify_uploaded_object env.store.getObjectResult parts with
      | mk b msg =>
          cases b
          · simp only [completionStage, hcr, hv, handleUploadError] at h ⊢
            cases h
            refine ⟨getLast?_append_some phases1 ?_, rfl⟩
            rfl
          · simp only [completionStage, hcr, hv] at h
            exact Except.noConfusion h

/-- When the completion stage fails, an abort call is in its trace. -/
theorem completionStage_abort (args : Args) (env : Env) (uid : String) (parts : List Part)
    (phases1 : List UploadPhase) (trace1 : List Event) (err : UploadErr)
    (h : (completionStage args env uid parts phases1 trace1).result = .error err) :
    Event.abortMultipartUpload args.bucket args.key uid
      ∈ (completionStage args env uid parts phases1 trace1).trace := by
  cases hcr : env.store.completeResult parts with
  | error e =>
      simp only [completionStage, hcr, handleUploadError]
      simp
  | ok u =>
      cases hv : verify_uploaded_object env.store.getObjectResult parts with
      | mk b msg =>
          cases b
          · simp only [completionStage, hcr, hv, handleUploadError]
            simp
          · simp only [completionStage, hcr, hv] at h
            exact Except.noConfusion h

/-- The events the completion stage can add to a trace. -/
theorem completionStage_trace_mem (args : Args) (env : Env) (uid : String) (parts : List Part)
    (phases1 : List UploadPhase) (trace1 : List Event) (e2 : Event)
    (h : e2 ∈ (completionStage args env uid parts phases1 trace1).trace) :
    e2 ∈ trace1 ∨ e2 = Event.completeMultipartUpload args.bucket args.key uid parts
    ∨ e2 = Event.getObject args.bucket args.key
    ∨ e2 = Event.abortMultipartUpload args.bucket args.key uid := by
  cases hcr : env.store.completeResult parts with
  | error e =>
      simp only [completionStage, hcr, handleUploadError, List.mem_append,
        List.mem_singleton] at h
      tauto
  | ok u =>
      cases hv : verify_uploaded_object env.store.getObjectResult parts with
      | mk b msg =>
          cases b <;>
            simp only [completionStage, hcr, hv, handleUploadError, List.mem_append,
              List.mem_singleton] at h <;>
            tauto

/-- When the rest of the run after the read loop fails, the error
carries the last ledger entry, which is marked unsuccessful.  The
`hloop` hypothesis is the loop invariant established by
`runLoop_uploadErr_last`. -/
theorem afterLoop_error (args : Args) (env : Env) (uid : String) (x : LoopExit)
    (phs : List UploadPhase) (evs : List Event) (err : UploadErr)
    (hloop : ∀ ph, x = .uploadErr ph → phs.getLast? = some ph ∧ ph.success = false)
    (h : (afterLoop args env uid (x, phs, evs)).result = .error err) :
    (afterLoop args env uid (x, phs, evs)).phases.getLast? = some err.phase
    ∧ err.phase.success = false := by
  cases hfin : applyFinally args.is_file x with
  | pyErr e =>
      simp only [afterLoop, hfin, handleUnexpected] at h ⊢
      cases h
      exact ⟨List.getLast?_concat _, rfl⟩
  | uploadErr ph =>
      have hx : x = .uploadErr ph := by
        unfold applyFinally at hfin
        split at hfin
        · exact LoopExit.noConfusion hfin
        · exact hfin
      obtain ⟨h1, h2⟩ := hloop ph hx
      simp only [afterLoop, hfin, handleUploadError] at h ⊢
      cases h
      exact ⟨getLast?_append_some [initSuccessPhase] h1, h2⟩
  | finished parts bs =>
      simp only [afterLoop, hfin] at h ⊢
      exact completionStage_error args env uid parts _ _ err h

/-- When the rest of the run after the read loop fails with anything
other than the wrapped unexpected-exception error, an abort call is in
the trace. -/
theorem afterLoop_abort (args : Args) (env : Env) (uid : String) (x : LoopExit)
    (phs : List UploadPhase) (evs : List Event) (err : UploadErr)
    (h : (afterLoop args env uid (x, phs, evs)).result = .error err)
    (hm : err.phase.message ≠ some "Unexpected error") :
    Event.abortMultipartUpload args.bucket args.key uid
      ∈ (afterLoop args env uid (x, phs, evs)).trace := by
  cases hfin : applyFinally args.is_file x with
  | pyErr e =>
      simp only [afterLoop, hfin, handleUnexpected] at h
      cases h
      exact absurd rfl hm
  | uploadErr ph =>
      simp only [afterLoop, hfin, handleUploadError]
      simp
  | finished parts bs =>
      simp only [afterLoop, hfin] at h ⊢
      exact completionStage_abort args env uid parts _ _ err h

/-- The events any run suffix after the read loop can contain. -/
theorem afterLoop_trace_mem (args : Args) (env : Env) (uid : String) (x : LoopExit)
    (phs : List UploadPhase) (evs : List Event) (e2 : Event)
    (h : e2 ∈ (afterLoop args env uid (x, phs, evs)).trace) :
    e2 = Event.createMultipartUpload args.bucket args.key ∨ e2 ∈ evs
    ∨ (∃ parts bs, applyFinally args.is_file x = .finished parts bs
        ∧ (e2 = Event.completeMultipartUpload args.bucket args.key uid parts
           ∨ e2 = Event.getObject args.bucket args.key))
    ∨ e2 = Event.abortMultipartUpload args.bucket args.key uid := by
  cases hfin : applyFinally args.is_file x with
  | pyErr e =>
      simp only [afterLoop, hfin, handleUnexpected, List.mem_cons] at h
      tauto
  | uploadErr ph =>
      simp only [afterLoop, hfin, handleUploadError, List.mem_append, List.mem_cons,
        List.mem_singleton] at h
      tauto
  | finished parts bs =>
      simp only [afterLoop, hfin] at h
      rcases completionStage_trace_mem args env uid parts _ _ e2 h with h1 | h1 | h1 | h1
      · rcases List.mem_cons.mp h1 with h2 | h2
        · exact Or.inl h2
        · exact Or.inr (Or.inl h2)
      · exact Or.inr (Or.inr (Or.inl ⟨parts, bs, rfl, Or.inl h1⟩))
      · exact Or.inr (Or.inr (Or.inl ⟨parts, bs, rfl, Or.inr h1⟩))
      · exact Or.inr (Or.inr (Or.inr h1))

/-! ## C3: what the raised error object carries -/

/-- C3 (amended): whenever `multipart_upload` fails, the raised error
carries exactly the one failing `UploadPhase` — the last entry of the
ledger, marked unsuccessful.  (The `UploadError` object does not carry
the ledger itself; see the counterexample.) -/
theorem C3_error_carries_last_failing_phase (args : Args) (env : Env) (err : UploadErr)
    (h : (multipart_upload args env).result = .error err) :
    (multipart_upload args env).phases.getLast? = some err.phase
    ∧ err.phase.success = false := by
  cases hc : env.store.createResult with
  | error e =>
      simp only [multipart_upload, hc] at h ⊢
      cases h
      exact ⟨rfl, rfl⟩
  | ok uid =>
      cases hr : readSource args.is_file args.source env.fs with
      | error e =>
          simp only [multipart_upload, hc, hr, handleUnexpected] at h ⊢
          cases h
          exact ⟨List.getLast?_concat _, rfl⟩
      | ok data =>
          simp only [multipart_upload, hc, hr, runBody] at h ⊢
          exact afterLoop_error args env uid _ _ _ err
            (fun ph hx => runLoop_uploadErr_last _ _ _ _ _ ph hx) h

/-- C3 counterexample: two executions raise the very same error object
while their ledgers differ, so the complete ledger cannot be inspected
from the error alone — the error does not carry the ledger. -/
theorem C3_counterexample :
    (multipart_upload c3ArgsA c3Env).result = (multipart_upload c3ArgsB c3Env).result
    ∧ (multipart_upload c3ArgsA c3Env).result
        = .error ⟨⟨.COMPLETION, none, false, some "Failed to complete upload",
            some (.otherError "boom")⟩⟩
    ∧ (multipart_upload c3ArgsA c3Env).phases ≠ (multipart_upload c3ArgsB c3Env).phases :=
  ⟨by decide, by decide, by decide⟩

/-- Witness for the amended C3 at a concrete failing run. -/
theorem C3_witness :
    (multipart_upload c3wArgs c3wEnv).result = .error c3wErr
    ∧ ((multipart_upload c3wArgs c3wEnv).phases.getLast? = some c3wErr.phase
       ∧ c3wErr.phase.success = false) :=
  ⟨by decide, C3_error_carries_last_failing_phase c3wArgs c3wEnv c3wErr (by decide)⟩

/-! ## C2: abort on failure -/

/-- C2 (amended): when Init succeeded (the store assigned `uid`) and the
run fails with an error other than the wrapped unexpected-exception
error (`message = "Unexpected error"`, the `except Exception` path), an
`AbortMultipartUpload` call with that session's uploadId is in the
trace before the error propagates; and the outcome of the abort call
itself never changes the result that propagates.  Failures that reach
the `except Exception` handler — input errors discovered after Init and
exceptions replacing a propagating error in the `finally` clause — do
not attempt an abort (see the counterexample). -/
theorem C2_abort_attempted (args : Args) (env : Env) (uid : String) (err : UploadErr)
    (hc : env.store.createResult = .ok uid)
    (h : (multipart_upload args env).result = .error err)
    (hm : err.phase.message ≠ some "Unexpected error") :
    Event.abortMultipartUpload args.bucket args.key uid ∈ (multipart_upload args env).trace
    ∧ ∀ r1 r2 : Except PyErr Unit,
        (multipart_upload args { env with store := { env.store with abortResult := r1 } }).result
        = (multipart_upload args { env with store := { env.store with abortResult := r2 } }).result := by
  constructor
  · cases hr : readSource args.is_file args.source env.fs with
    | error e =>
        simp only [multipart_upload, hc, hr, handleUnexpected] at h
        cases h
        exact absurd rfl hm
    | ok data =>
        simp only [multipart_upload, hc, hr, runBody] at h ⊢
        exact afterLoop_abort args env uid _ _ _ err h hm
  · intro r1 r2
    rfl

/-- C2 counterexample: an execution that fails after Init succeeded (an
uploadId was assigned) whose trace contains no abort call — the
missing-file error surfaces through the `except Exception` handler,
which never aborts, so the claim as stated is false. -/
theorem C2_counterexample :
    c2cEnv.store.createResult = .ok "u9"
    ∧ (multipart_upload c2cArgs c2cEnv).result
        = .error ⟨⟨.INIT, none, false, some "Unexpected error",
            some (.fileNotFoundError "nofile")⟩⟩
    ∧ (multipart_upload c2cArgs c2cEnv).trace = [Event.createMultipartUpload "bc" "kc"] :=
  ⟨by decide, by decide, by decide⟩

/-- Witness for the amended C2 at a concrete completion failure. -/
theorem C2_witness :
    (c2wEnv.store.createResult = .ok "u2"
      ∧ (multipart_upload c2wArgs c2wEnv).result = .error c2wErr
      ∧ c2wErr.phase.message ≠ some "Unexpected error")
    ∧ (Event.abortMultipartUpload "b2" "k2" "u2" ∈ (multipart_upload c2wArgs c2wEnv).trace
       ∧ ∀ r1 r2 : Except PyErr Unit,
          (multipart_upload c2wArgs { c2wEnv with store := { c2wEnv.store with abortResult := r1 } }).result
          = (multipart_upload c2wArgs { c2wEnv with store := { c2wEnv.store with abortResult := r2 } }).result) :=
  ⟨⟨by decide, by decide, by decide⟩,
    C2_abort_attempted c2wArgs c2wEnv "u2" c2wErr (by decide) (by decide) (by decide)⟩

/-! ## C4: when input errors surface -/

/-- C4 (amended): an input error (invalid source argument, or missing
file) is raised only after the `CreateMultipartUpload` network call —
the trace of such a run is exactly that one call — and the run then
fails through the `except Exception` handler without an abort, leaving
the freshly created session behind. -/
theorem C4_input_error_after_create (args : Args) (env : Env) (uid : String) (e : PyErr)
    (hc : env.store.createResult = .ok uid)
    (hr : readSource args.is_file args.source env.fs = .error e) :
    (multipart_upload args env).result
      = .error ⟨⟨.INIT, none, false, some "Unexpected error", some e⟩⟩
    ∧ (multipart_upload args env).trace = [Event.createMultipartUpload args.bucket args.key] := by
  refine ⟨?_, ?_⟩ <;> simp [multipart_upload, hc, hr, handleUnexpected]

/-- C4 counterexample: a run with an invalid source argument (`is_file`
with a bytes object) in which the `CreateMultipartUpload` network call
is nevertheless issued before the failure — so input errors do not fail
before any network call, and the created session is never aborted. -/
theorem C4_counterexample :
    (multipart_upload c4Args c4Env).result
      = .error ⟨⟨.INIT, none, false, some "Unexpected error",
          some (.valueError "File upload requires a string path")⟩⟩
    ∧ Event.createMultipartUpload "b4" "k4" ∈ (multipart_upload c4Args c4Env).trace
    ∧ (multipart_upload c4Args c4Env).trace = [Event.createMultipartUpload "b4" "k4"] :=
  ⟨by decide, by decide, by decide⟩

/-- Witness for the amended C4 at a concrete invalid text/bytes input. -/
theorem C4_witness :
    (c4wEnv.store.createResult = .ok "u4w"
      ∧ readSource c4wArgs.is_file c4wArgs.source c4wEnv.fs
          = .error (.valueError "Invalid input type for text/bytes upload"))
    ∧ ((multipart_upload c4wArgs c4wEnv).result
        = .error ⟨⟨.INIT, none, false, some "Unexpected error",
            some (.valueError "Invalid input type for text/bytes upload")⟩⟩
       ∧ (multipart_upload c4wArgs c4wEnv).trace
          = [Event.createMultipartUpload "b4w" "k4w"]) :=
  ⟨⟨by decide, by decide⟩,
    C4_input_error_after_create c4wArgs c4wEnv "u4w" _ (by decide) (by decide)⟩

/-! ## C5: release of the input byte source -/

/-- C5 evaluated on the code: the cleanup clause `if is_file and
isinstance(data_source, (file, BytesIO))` names the Python-2 builtin
`file`, undefined under Python 3, so a file upload whose every store
interaction succeeds still ends in a `NameError` raised by the cleanup
itself and the file handle is never closed; and for an in-memory source
the close call is skipped entirely (the conjunction short-circuits), so
no execution ever releases the input byte source. -/
theorem C5_cleanup_raises_and_never_closes :
    (multipart_upload c5Args c5Env).result
      = .error ⟨⟨.INIT, none, false, some "Unexpected error",
          some (.nameError "name file is not defined")⟩⟩
    ∧ Event.closeSource ∉ (multipart_upload c5Args c5Env).trace
    ∧ (multipart_upload c5MemArgs c5MemEnv).result = .ok ()
    ∧ Event.closeSource ∉ (multipart_upload c5MemArgs c5MemEnv).trace :=
  ⟨by decide, by decide, by decide, by decide⟩

/-! ## C7: the part manifest is contiguously numbered from 1 -/

/-- C7: in every execution, whatever the chunk contents and the store
behaviour, a manifest passed to a `CompleteMultipartUpload` call has
partNumber values exactly `1, 2, ..., n` — strictly increasing,
contiguous, starting at 1, in upload order. -/
theorem C7_manifest_contiguous (args : Args) (env : Env) (b k u : String) (ps : List Part)
    (h : Event.completeMultipartUpload b k u ps ∈ (multipart_upload args env).trace) :
    ps.map (fun p => p.partNumber) = seqFrom 1 ps.length := by
  cases hc : env.store.createResult with
  | error e =>
      simp only [multipart_upload, hc, List.mem_singleton] at h
      exact Event.noConfusion h
  | ok uid =>
      cases hr : readSource args.is_file args.source env.fs with
      | error e =>
          simp only [multipart_upload, hc, hr, handleUnexpected, List.mem_singleton] at h
          exact Event.noConfusion h
      | ok data =>
          simp only [multipart_upload, hc, hr, runBody] at h
          rcases afterLoop_trace_mem args env uid _ _ _ _ h with
            h1 | h1 | ⟨parts, bs, hfin, h1 | h1⟩ | h1
          · exact Event.noConfusion h1
          · obtain ⟨p, c, s2, hE⟩ := runLoop_trace_shape _ _ _ _ _ _ h1
            exact Event.noConfusion hE
          · have hxx : (runLoop ⟨env.store.uploadPartResult, args.bucket, args.key, uid,
                data.length⟩ (chunks partSize data) 1 0 []).1 = .finished parts bs := by
              unfold applyFinally at hfin
              split at hfin
              · exact LoopExit.noConfusion hfin
              · exact hfin
            obtain ⟨suf, hps, hmap⟩ := runLoop_finished_parts _ _ _ _ _ _ _ hxx
            cases h1
            rw [hps, List.nil_append]
            exact hmap
          · exact Event.noConfusion h1
          · exact Event.noConfusion h1

/-- Witness for C7 at a concrete single-part run. -/
theorem C7_witness :
    Event.completeMultipartUpload "b7" "k7" "u7" [⟨"e7", 1, compute_crc32 [7]⟩]
      ∈ (multipart_upload c7Args c7Env).trace
    ∧ ([⟨"e7", 1, compute_crc32 [7]⟩] : List Part).map (fun p => p.partNumber)
      = seqFrom 1 ([⟨"e7", 1, compute_crc32 [7]⟩] : List Part).length :=
  ⟨by decide, C7_manifest_contiguous c7Args c7Env "b7" "k7" "u7" _ (by decide)⟩

/-! ## C8: zero-byte input -/

/-- For a non-file source, the bytes the read loop sees are exactly the
in-memory bytes of the source argument. -/
theorem readSource_inMemory (source : PySource) (fs : String → Option (List Nat))
    (d : List Nat) (h : inMemoryBytes source = some d) :
    readSource false source fs = .ok d := by
  cases source with
  | str s =>
      simp only [inMemoryBytes, Option.some.injEq] at h
      simp only [readSource, h]
      rfl
  | bytes d2 =>
      simp only [inMemoryBytes, Option.some.injEq] at h
      simp only [readSource, h]
      rfl
  | buffer d2 =>
      simp only [inMemoryBytes, Option.some.injEq] at h
      simp only [readSource, h]
      rfl
  | otherObj =>
      simp only [inMemoryBytes] at h
      exact Option.noConfusion h

/-- C8 (amended, restricted to in-memory sources; a zero-byte file
input never reaches Completion, see the counterexample): a zero-byte
non-file input records zero PART_UPLOAD phases, passes the empty
manifest to `CompleteMultipartUpload`, and — when the store accepts the
empty completion — still records a successful Completion phase and
executes the Verification phase, never raising on the empty part list:
the run either returns or fails with a Verification phase failure. -/
theorem C8_zero_byte_in_memory (args : Args) (env : Env) (uid : String)
    (hf : args.is_file = false)
    (hm : inMemoryBytes args.source = some [])
    (hc : env.store.createResult = .ok uid)
    (hcomp : env.store.completeResult [] = .ok ()) :
    (∀ ph ∈ (multipart_upload args env).phases, ph.stage ≠ UploadStage.PART_UPLOAD)
    ∧ Event.completeMultipartUpload args.bucket args.key uid []
        ∈ (multipart_upload args env).trace
    ∧ Event.getObject args.bucket args.key ∈ (multipart_upload args env).trace
    ∧ (∃ ph ∈ (multipart_upload args env).phases,
        ph.stage = UploadStage.COMPLETION ∧ ph.success = true)
    ∧ (∃ ph ∈ (multipart_upload args env).phases, ph.stage = UploadStage.VERIFICATION)
    ∧ ((multipart_upload args env).result = .ok ()
       ∨ ∃ err : UploadErr, (multipart_upload args env).result = .error err
          ∧ err.phase.stage = UploadStage.VERIFICATION) := by
  obtain ⟨b, k, src, isf⟩ := args
  simp only at hf hm
  subst hf
  have hread : readSource false src env.fs = .ok [] :=
    readSource_inMemory src env.fs [] hm
  have heq : multipart_upload ⟨b, k, src, false⟩ env
      = completionStage ⟨b, k, src, false⟩ env uid [] [initSuccessPhase]
          [Event.createMultipartUpload b k] := by
    simp only [multipart_upload, hc, hread]
    rfl
  rw [heq]
  simp only [completionStage, hcomp]
  cases hv : verify_uploaded_object env.store.getObjectResult [] with
  | mk vb vmsg =>
      cases vb
      · simp only [handleUploadError]
        refine ⟨?_, ?_, ?_, ?_, ?_, ?_⟩
        · intro ph hph
          simp only [List.mem_cons, List.mem_append, List.mem_singleton,
            List.not_mem_nil, or_false, List.cons_append, List.nil_append] at hph
          rcases hph with h1 | h1 | h1 <;> subst h1 <;> simp [initSuccessPhase]
        · simp
        · simp
        · exact ⟨⟨.COMPLETION, none, true, some "Upload completed successfully", none⟩,
            by simp, rfl, rfl⟩
        · exact ⟨⟨.VERIFICATION, none, false, vmsg, none⟩, by simp, rfl⟩
        · exact Or.inr ⟨_, rfl, rfl⟩
      · refine ⟨?_, ?_, ?_, ?_, ?_, ?_⟩
        · intro ph hph
          simp only [List.mem_cons, List.mem_append, List.mem_singleton,
            List.not_mem_nil, or_false, List.cons_append, List.nil_append] at hph
          rcases hph with h1 | h1 | h1 <;> subst h1 <;> simp [initSuccessPhase]
        · simp
        · simp
        · exact ⟨⟨.COMPLETION, none, true, some "Upload completed successfully", none⟩,
            by simp, rfl, rfl⟩
        · exact ⟨⟨.VERIFICATION, none, true, some "All checksums verified successfully", none⟩,
            by simp, rfl⟩
        · exact Or.inl rfl

/-- C8 counterexample: a zero-byte file input records zero PART_UPLOAD
phases but never executes Completion or Verification — the cleanup
clause raises `NameError` first, so the run fails through the
`except Exception` handler with no completion call in its trace. -/
theorem C8_counterexample :
    (multipart_upload c8Args c8Env).result
      = .error ⟨⟨.INIT, none, false, some "Unexpected error",
          some (.nameError "name file is not defined")⟩⟩
    ∧ (multipart_upload c8Args c8Env).trace = [Event.createMultipartUpload "b8" "k8"]
    ∧ (∀ ph ∈ (multipart_upload c8Args c8Env).phases, ph.stage ≠ UploadStage.COMPLETION
        ∧ ph.stage ≠ UploadStage.VERIFICATION) :=
  ⟨by decide, by decide, by decide⟩

/-- Witness for the amended C8 at a concrete zero-byte in-memory run. -/
theorem C8_witness :
    (c8wArgs.is_file = false ∧ inMemoryBytes c8wArgs.source = some []
      ∧ c8wEnv.store.createResult = .ok "u8w" ∧ c8wEnv.store.completeResult [] = .ok ())
    ∧ ((∀ ph ∈ (multipart_upload c8wArgs c8wEnv).phases, ph.stage ≠ UploadStage.PART_UPLOAD)
       ∧ Event.completeMultipartUpload "b8w" "k8w" "u8w" []
           ∈ (multipart_upload c8wArgs c8wEnv).trace
       ∧ Event.getObject "b8w" "k8w" ∈ (multipart_upload c8wArgs c8wEnv).trace
       ∧ (∃ ph ∈ (multipart_upload c8wArgs c8wEnv).phases,
            ph.stage = UploadStage.COMPLETION ∧ ph.success = true)
       ∧ (∃ ph ∈ (multipart_upload c8wArgs c8wEnv).phases,
            ph.stage = UploadStage.VERIFICATION)
       ∧ ((multipart_upload c8wArgs c8wEnv).result = .ok ()
          ∨ ∃ err : UploadErr, (multipart_upload c8wArgs c8wEnv).result = .error err
             ∧ err.phase.stage = UploadStage.VERIFICATION)) :=
  ⟨⟨by decide, by decide, by decide, by decide⟩,
    C8_zero_byte_in_memory c8wArgs c8wEnv "u8w" (by decide) (by decide) (by decide) (by decide)⟩

end S3Integrity
